import Mathlib

/-!
Verification of the Pascal backend of wit-bindgen (crates/pascal/src/lib.rs).

The definitions below are a shallow embedding of the generator's data model
and of the semantics of the code it emits.  Machine integers of the emitted
Pascal are modelled as `Int`/`Nat` with explicit wraparound.
-/

namespace WitPascal

/-! ### Integer conversion instructions (FunctionBindgen::emit, lib.rs 2607-2625)

The generator renders each narrowing instruction as a Pascal typecast
(`byte(x)`, `int8(x)`, ...) and each widening instruction as a cast to the
wide type (`int32(x)`, `int64(x)`) or as the identity.  Free Pascal value
typecasts between integer types truncate to the target width with
two's-complement wraparound; the functions below give that semantics.
-/

/-- Semantics of the Pascal cast `byte(x)`: low 8 bits, unsigned.
Emitted for `Instruction::U8FromI32`. -/
def u8FromI32 (x : Int) : Int := x % 256

/-- Semantics of the Pascal cast `int8(x)`: low 8 bits, two's complement.
Emitted for `Instruction::S8FromI32`. -/
def s8FromI32 (x : Int) : Int := (x + 128) % 256 - 128

/-- Semantics of the Pascal cast `uint16(x)`.  Emitted for `Instruction::U16FromI32`. -/
def u16FromI32 (x : Int) : Int := x % 65536

/-- Semantics of the Pascal cast `int16(x)`.  Emitted for `Instruction::S16FromI32`. -/
def s16FromI32 (x : Int) : Int := (x + 32768) % 65536 - 32768

/-- Semantics of the Pascal cast `uint32(x)`.  Emitted for `Instruction::U32FromI32`. -/
def u32FromI32 (x : Int) : Int := x % 4294967296

/-- The generator emits `operands[0].clone()` for `Instruction::S32FromI32`:
an identity at the expression level. -/
def s32FromI32 (x : Int) : Int := x

/-- Semantics of the Pascal cast `uint64(x)`.  Emitted for `Instruction::U64FromI64`. -/
def u64FromI64 (x : Int) : Int := x % 18446744073709551616

/-- Identity emitted for `Instruction::S64FromI64`. -/
def s64FromI64 (x : Int) : Int := x

/-- Semantics of the Pascal cast `int32(x)` (two's-complement truncation to
32 bits).  Emitted for `Instruction::I32FromU8`, `I32FromS8`, `I32FromU16`,
`I32FromS16` and `I32FromU32`. -/
def i32FromNarrow (x : Int) : Int := (x + 2147483648) % 4294967296 - 2147483648

/-- Identity emitted for `Instruction::I32FromS32`. -/
def i32FromS32 (x : Int) : Int := x

/-- Semantics of the Pascal cast `int64(x)`.  Emitted for `Instruction::I64FromU64`. -/
def i64FromU64 (x : Int) : Int :=
  (x + 9223372036854775808) % 18446744073709551616 - 9223372036854775808

/-- Identity emitted for `Instruction::I64FromS64`. -/
def i64FromS64 (x : Int) : Int := x

/-! ### Flags lowering and lifting for more than 32 members
(FunctionBindgen::emit, lib.rs 2744-2767, the `Int::U64` arms)

Lowering pushes `tmp and 0xffffffff` first and `(tmp shr 32) and 0xffffffff`
second; lifting computes `lo or (hi shl 32)`. -/

/-- Two-word lowering of a u64 flags mask: low 32 bits first, high 32 bits
second (the order the generator pushes the two result operands). -/
def flagsLower64 (m : Nat) : Nat × Nat :=
  (m &&& 0xffffffff, (m >>> 32) &&& 0xffffffff)

/-- Lifting of a two-word flags mask: the low half OR the high half shifted
left 32. -/
def flagsLift64 (lo hi : Nat) : Nat := lo ||| (hi <<< 32)

/-! ### The generated cabi_realloc intrinsic (Pascal::print_intrinsics, lib.rs 948-969)

The emitted Pascal body is:
if new_size = 0 then begin cabi_realloc := Pointer(align); exit; end;
ReallocMem(ptr, new_size); cabi_realloc := ptr.

`reallocMem` abstracts the Free Pascal heap manager: given the old pointer
and the requested size, it yields the possibly-moved pointer.  The boolean
in the result records whether ReallocMem was invoked. -/
def cabi_realloc (reallocMem : Nat → Nat → Nat)
    (ptr old_size align new_size : Nat) : Bool × Nat :=
  if new_size = 0 then (false, align) else (true, reallocMem ptr new_size)

/-! ### Type registry and layout namer
(InterfaceGenerator::define_live_types, lib.rs 1606-1658, and
gen_type_name, lib.rs 1575-1589)

A type identity is a `Nat` (standing for a wit-parser `TypeId`).  `TypeMeta`
records the data `define_live_types` extracts from the resolve for one type:
the `CTypeNameInfo` produced by `gen_type_name`, the structural encoding
produced by `push_ty_name`, the owner namespace, and whether the type is a
handle whose resource is not an alias (`dealias(resource) == resource`), in
which case `define_anonymous_type` is skipped. -/

inductive CTypeNameInfo where
  | named (name : String)
  | anonymous (isPrim : Bool)
deriving DecidableEq

structure TypeMeta where
  info : CTypeNameInfo
  encoded : String
  ownerNs : String
  isDirectHandle : Bool
deriving DecidableEq

/-- The registries mutated by `define_live_types`: `Pascal::type_names`,
`Pascal::prim_names`, and (abstractly) the list of type identities whose
declaration has been emitted into `h_defs`. -/
structure NameState where
  typeNames : List (Nat × String)
  primNames : List String
  hDefs : List Nat
deriving DecidableEq

/-- One iteration of the loop body of `define_live_types` for the live type
`ty`.  Types already present in `type_names` are skipped (`continue`); named
types get `{owner_namespace}_{encoded}_t` and are defined; anonymous
primitive-only types get the world-pooled `{world}_{encoded}_t` and are
defined only if the name was not pooled before; other anonymous types get
`{owner_namespace}_{encoded}_t`; handle types pointing directly at a
resource skip `define_anonymous_type`. -/
def defineLiveStep (world : String) (meta : Nat → TypeMeta) (st : NameState)
    (ty : Nat) : NameState :=
  if (st.typeNames.lookup ty).isSome then st
  else
    match (meta ty).info with
    | .named _ =>
        let typedefName := (meta ty).ownerNs ++ "_" ++ (meta ty).encoded ++ "_t"
        { st with typeNames := (ty, typedefName) :: st.typeNames,
                  hDefs := st.hDefs ++ [ty] }
    | .anonymous isPrim =>
        if isPrim then
          let name := world ++ "_" ++ (meta ty).encoded ++ "_t"
          let defined := name ∈ st.primNames
          let primNames := if defined then st.primNames else name :: st.primNames
          let typeNames := (ty, name) :: st.typeNames
          if defined ∨ (meta ty).isDirectHandle then
            { st with typeNames := typeNames, primNames := primNames }
          else
            { st with typeNames := typeNames, primNames := primNames,
                      hDefs := st.hDefs ++ [ty] }
        else
          let name := (meta ty).ownerNs ++ "_" ++ (meta ty).encoded ++ "_t"
          if (meta ty).isDirectHandle then
            { st with typeNames := (ty, name) :: st.typeNames }
          else
            { st with typeNames := (ty, name) :: st.typeNames,
                      hDefs := st.hDefs ++ [ty] }

/-- `define_live_types`: fold the loop body over the live types in their
dependency-respecting yield order. -/
def defineLiveTypes (world : String) (meta : Nat → TypeMeta) (st : NameState)
    (live : List Nat) : NameState :=
  live.foldl (defineLiveStep world meta) st

/-! ### Pruning import registries after exports
(Pascal::remove_types_redefined_by_exports, lib.rs 626-631, and
imported_types_used_by_exported_interfaces, lib.rs 679-720)

`MiniResolve` is the fragment of the wit-parser `Resolve` these functions
consult: each type's owning interface (if any) and the types it references,
each interface's directly mentioned types, and the world's exported
interfaces.  `LiveTypes::add_interface` is modelled as the reachability
closure of an interface's types through type references, computed with
`numTypes` rounds of expansion. -/

structure MiniResolve where
  numTypes : Nat
  typeOwner : Nat → Option Nat
  typeDeps : Nat → List Nat
  ifaceTypes : Nat → List Nat
  exports : List Nat

def depsStep (r : MiniResolve) (s : List Nat) : List Nat :=
  (s ++ s.bind r.typeDeps).dedup

def closureN (r : MiniResolve) : Nat → List Nat → List Nat
  | 0, s => s
  | n + 1, s => closureN r n (depsStep r s)

/-- The live-type set of one interface (`LiveTypes::add_interface`). -/
def interfaceClosure (r : MiniResolve) (i : Nat) : List Nat :=
  closureN r r.numTypes (r.ifaceTypes i)

/-- All types used by exported interfaces (`live_export_types`). -/
def liveExportTypes (r : MiniResolve) : List Nat :=
  r.exports.bind (interfaceClosure r)

/-- Interfaces that own a type used by exports but are not themselves
exported (`imports_used`). -/
def importsUsed (r : MiniResolve) : List Nat :=
  (((liveExportTypes r).filterMap r.typeOwner).filter
    (fun i => decide (i ∉ r.exports))).dedup

/-- All live types of the import interfaces in `imports_used`
(`live_import_types`). -/
def liveImportTypes (r : MiniResolve) : List Nat :=
  (importsUsed r).bind (interfaceClosure r)

/-- `remove_types_redefined_by_exports` applied to one registry
(each of `type_names`, `dtor_funcs`, `resources` is filtered the same way):
retain exactly the keys contained in `live_import_types`. -/
def removeTypesRedefinedByExports (r : MiniResolve) (reg : List (Nat × String)) :
    List (Nat × String) :=
  reg.filter (fun kv => decide (kv.1 ∈ liveImportTypes r))

/-- Modelled from the claim's wording (not from the source): the set of types
transitively reachable from an exported interface of the world.  Used to
compare the claim's retention criterion with the one the code implements. -/
def reachableFromExportedInterfaces (r : MiniResolve) : List Nat :=
  r.exports.bind (interfaceClosure r)

/-! ### The wit type graph fragment the classifier and the interpreter consult

`WitType` mirrors `wit_parser::Type` (type ids are `Nat`); `TypeDefKind`
mirrors the variants of `wit_parser::TypeDefKind` that the Pascal backend
handles, with only the payloads its code reads. -/

inductive WitType where
  | tBool | tChar | tU8 | tS8 | tU16 | tS16 | tU32 | tS32 | tU64 | tS64
  | tF32 | tF64 | tString
  | tId (i : Nat)
deriving DecidableEq

inductive WitHandle where
  | own (resource : Nat)
  | borrow (resource : Nat)
deriving DecidableEq

inductive TypeDefKind where
  | alias (t : WitType)
  | record (fields : List WitType)
  | resource
  | handle (h : WitHandle)
  | flags (members : Nat)
  | tuple (types : List WitType)
  | variant (cases : List (Option WitType))
  | enum
  | option (t : WitType)
  | result (ok err : Option WitType)
  | list (t : WitType)
  | future
  | stream
  | errorContext
  | unknown
deriving DecidableEq

/-! ### Signature classifier (Return::return_single, lib.rs 973-1040;
classify_ret, lib.rs 2277-2286; print_sig, lib.rs 2164-2275) -/

inductive Scalar where
  | void
  | optionBool (t : WitType)
  | resultBool (ok err : Option WitType)
  | type (t : WitType)
deriving DecidableEq

structure Return where
  scalar : Option Scalar
  retptrs : List WitType
deriving DecidableEq

/-- `Return::return_single`.  The `fuel` bounds recursion through type
aliases (wit-parser guarantees alias chains are acyclic); `none` means the
fuel ran out or the type hit one of the `todo!`/`unreachable!` arms
(future, stream, error-context, resource, unknown). -/
def returnSingle (env : Nat → TypeDefKind) :
    Nat → Return → WitType → WitType → Bool → Option Return
  | 0, _, _, _, _ => none
  | _ + 1, r, .tString, origTy, _ =>
      some { r with retptrs := r.retptrs ++ [origTy] }
  | fuel + 1, r, .tId i, origTy, sigFlattening =>
      (match env i with
       | .alias t => returnSingle env fuel r t origTy sigFlattening
       | .flags _ | .enum | .handle _ =>
           some { r with scalar := some (.type origTy) }
       | .option t =>
           if sigFlattening then
             some { scalar := some (.optionBool t), retptrs := r.retptrs ++ [t] }
           else
             some { r with retptrs := r.retptrs ++ [origTy] }
       | .result ok err =>
           if sigFlattening then
             some { scalar := some (.resultBool ok err),
                    retptrs := r.retptrs ++ ok.toList ++ err.toList }
           else
             some { r with retptrs := r.retptrs ++ [origTy] }
       | .tuple _ | .record _ | .list _ | .variant _ =>
           some { r with retptrs := r.retptrs ++ [origTy] }
       | .future | .stream | .errorContext | .resource | .unknown => none)
  | _ + 1, r, _, origTy, _ =>
      some { r with scalar := some (.type origTy) }

/-- `classify_ret`: a missing result type is `Scalar::Void`, otherwise
`return_single` runs on the result type. -/
def classifyRet (env : Nat → TypeDefKind) (fuel : Nat)
    (result : Option WitType) (sigFlattening : Bool) : Option Return :=
  match result with
  | none => some { scalar := some .void, retptrs := [] }
  | some ty => returnSingle env fuel { scalar := none, retptrs := [] } ty ty sigFlattening

/-- The function-or-procedure choice and the Pascal return type `print_sig`
derives from the classified scalar (lib.rs 2178-2192). -/
def scalarSigKind (typeName : WitType → String) : Option Scalar → Bool × String
  | none => (false, "")
  | some .void => (false, "")
  | some (.optionBool _) => (true, "boolean")
  | some (.resultBool _ _) => (true, "boolean")
  | some (.type t) => (true, typeName t)

/-- Out-parameter naming in `print_sig` (lib.rs 2233-2252): for a
`ResultBool` return the first out-parameter is named ret when an ok type
exists, the remaining one err; a single out-parameter is named ret
otherwise, and multiple ones ret0, ret1, ... -/
def retptrName (resultRets resultRetsHasOk singleRet : Bool) (i : Nat) : String :=
  if resultRets then (if i = 0 ∧ resultRetsHasOk then "ret" else "err")
  else if singleRet then "ret"
  else "ret" ++ toString i

def sigRetptrs (ret : Return) (resultRets resultRetsHasOk : Bool) : List String :=
  (List.range ret.retptrs.length).map
    (retptrName resultRets resultRetsHasOk (ret.retptrs.length == 1))

/-- Statements appearing in an import adapter's generated return path. -/
inductive RetStmt where
  | storeRetptr (retptr expr : String)
  | exitStmt (value : Bool)
deriving DecidableEq

/-- The generated import return path for a `ResultBool` scalar
(FunctionBindgen::emit, Instruction::Return import arm, lib.rs 3265-3297):
an if-statement on `not {variant}.is_err`; `thenStmts` is the branch taken
on success and `elseStmts` the branch taken on failure.  `finalStoreCount`
is the value of `ret_store_cnt` checked against the out-parameter count by
the closing assert. -/
structure ResultBoolEmit where
  thenStmts : List RetStmt
  elseStmts : List RetStmt
  finalStoreCount : Nat
deriving DecidableEq

def emitReturnImportResultBool (ok err : Option WitType)
    (retptrs : List String) (variant : String) : ResultBoolEmit :=
  let okPart : List RetStmt × Nat :=
    if ok.isSome then
      ([.storeRetptr (retptrs.getD 0 "") (variant ++ ".ok")], 1)
    else ([], 0)
  let errPart : List RetStmt × Nat :=
    if err.isSome then
      ([.storeRetptr (retptrs.getD okPart.2 "") (variant ++ ".err")], okPart.2 + 1)
    else ([], okPart.2)
  { thenStmts := okPart.1 ++ [.exitStmt true],
    elseStmts := errPart.1 ++ [.exitStmt false],
    finalStoreCount := errPart.2 }

/-! ### Resource handle lifting and the export return path
(FunctionBindgen::emit, Instruction::HandleLift, lib.rs 2706-2741;
Instruction::Return export arm, lib.rs 3299-3315) -/

inductive Direction where
  | dirImport
  | dirExport
deriving DecidableEq

structure ResourceInfo where
  direction : Direction
  own : String
  borrow : String
  dropFn : String
deriving DecidableEq

structure DroppableBorrow where
  name : String
  ty : Nat
deriving DecidableEq

/-- Statements appearing in an export adapter body. -/
inductive PStmt where
  | declZero (name : String)
  | assign (lhs rhs : String)
  | guardedDrop (name dropFn : String)
  | retStmt (expr : String)
deriving DecidableEq

structure LiftState where
  src : List PStmt
  borrowDecls : List PStmt
  borrows : List DroppableBorrow
  tmpIdx : Nat
deriving DecidableEq

/-- Fresh temporary names handed out by `self.locals.tmp("borrow")`. -/
def borrowTmpName (n : Nat) : String := "borrow" ++ toString n

/-- `Instruction::HandleLift`: a borrow of a resource whose registered
direction is Export becomes a direct pointer cast of the operand (the
resource lives in this module's own memory); any other handle is wrapped in
its canonical handle type, and a borrow of an imported resource seen while
lifting for an export adapter with autodrop enabled is copied into a fresh
temporary and recorded for deferred drop. -/
def emitHandleLift (resources : Nat → ResourceInfo) (dealias : Nat → Nat)
    (typeName : Nat → String) (inImport autodrop : Bool)
    (handle : WitHandle) (tyId : Nat) (op : String) (st : LiftState) :
    LiftState × String :=
  match handle with
  | .borrow resource =>
      if (resources (dealias resource)).direction = .dirExport then
        (st, "((" ++ typeName (dealias resource) ++ "*) " ++ op ++ ")")
      else
        let res := typeName tyId ++ "(" ++ op ++ ")"
        if !inImport && autodrop then
          let name := borrowTmpName st.tmpIdx
          ({ st with
             borrowDecls := st.borrowDecls ++ [.declZero name],
             src := st.src ++ [.assign name op],
             borrows := st.borrows ++ [⟨name, dealias resource⟩],
             tmpIdx := st.tmpIdx + 1 }, res)
        else (st, res)
  | .own _ => (st, typeName tyId ++ "(" ++ op ++ ")")

/-- `Instruction::Return` on the export path: the borrow declarations are
prepended to the body, then one guarded drop (if name is nonzero, call the
resource's drop function) is emitted per recorded borrow, then the return
statement when the return arity is one. -/
def emitReturnExport (resources : Nat → ResourceInfo) (st : LiftState)
    (amt : Nat) (op : String) : List PStmt :=
  st.borrowDecls ++ st.src
    ++ st.borrows.map (fun b => PStmt.guardedDrop b.name (resources b.ty).dropFn)
    ++ (if amt = 1 then [PStmt.retStmt op] else [])

/-! ### Return-pointer areas
(FunctionBindgen::return_pointer, lib.rs 2563-2584; the ret_area local in
InterfaceGenerator::import, lib.rs 2050-2058; the STATIC_RET_AREA
declaration in Pascal::finish, lib.rs 479-492) -/

/-- `import_return_pointer_area_{size,align}` live on the per-function
FunctionBindgen; `return_pointer_area_{size,align}` live on the pass-wide
Pascal generator. -/
structure RPState where
  importSize : Nat
  importAlign : Nat
  genSize : Nat
  genAlign : Nat
deriving DecidableEq

/-- `FunctionBindgen::return_pointer`: import adapters take the maximum into
the function-local counters and use the stack ret_area; export adapters
take the maximum into the pass-wide counters and use STATIC_RET_AREA. -/
def returnPointer (inImport : Bool) (size align : Nat) (st : RPState) :
    RPState × String :=
  if inImport then
    ({ st with importSize := max st.importSize size,
               importAlign := max st.importAlign align }, "Pbyte(@ret_area)")
  else
    ({ st with genSize := max st.genSize size,
               genAlign := max st.genAlign align }, "Pbyte(@STATIC_RET_AREA)")

def runReturnPointers (inImport : Bool) (reqs : List (Nat × Nat)) (st : RPState) :
    RPState × List String :=
  match reqs with
  | [] => (st, [])
  | (size, align) :: rest =>
      let step := returnPointer inImport size align st
      let next := runReturnPointers inImport rest step.1
      (next.1, step.2 :: next.2)

/-- The ret_area local inserted by `import` when the accumulated size is
positive: name and Pascal type only; the source's aligned-attribute line is
commented out, so no alignment is recorded in the declaration. -/
def importRetAreaDecl (importSize : Nat) : Option (String × String) :=
  if importSize > 0 then
    some ("ret_area", "array[0.." ++ toString (importSize - 1) ++ "] of byte")
  else none

structure StaticRetArea where
  align : Nat
  size : Nat
deriving DecidableEq

/-- The STATIC_RET_AREA declaration emitted by `finish` when the pass-wide
size is positive, carrying both the alignment attribute and the size. -/
def staticRetAreaDecl (genSize genAlign : Nat) : Option StaticRetArea :=
  if genSize > 0 then some ⟨genAlign, genSize⟩ else none

/-! ### Multi-value result arity checks
(InterfaceGenerator::import, lib.rs 1920-2065; InterfaceGenerator::export,
lib.rs 2067-2131)

`Bufs` abstracts the output buffers a function generator writes before and
after its arity checks; a thrown `Bufs` is the buffer state at the moment
the `unimplemented!("multi-value return not supported")` panic fires (the
panic abandons the whole pass, so nothing buffered is ever written out). -/

def exceptIsOk {ε α : Type} : Except ε α → Bool
  | .ok _ => true
  | .error _ => false

structure Bufs where
  hFns : List String
  cFns : List String
  cAdapters : List String
deriving DecidableEq

/-- `InterfaceGenerator::import`: the function's doc-comment lines are
written into h_fns first (`self.docs(&func.docs, SourceType::HFns)`,
lib.rs 1921), a newline separator goes to c_fns (lib.rs 1924), and then the
arity of the core signature's results is checked before anything else of
the function is printed; afterwards the raw import declaration, the public
signature (print_sig) and the adapter body are emitted. -/
def importGen (sigResults : Nat) (docs : List String) (sigText fnBody : String)
    (bufs : Bufs) : Except Bufs Bufs :=
  let b0 : Bufs := { bufs with hFns := bufs.hFns ++ docs }
  let b1 : Bufs := { b0 with cFns := b0.cFns ++ ["\n"] }
  if sigResults ≥ 2 then .error b1
  else
    let b2 : Bufs :=
      { b1 with cFns := b1.cFns ++ [if sigResults = 0 then "procedure" else "function"] }
    let b3 : Bufs := { b2 with hFns := b2.hFns ++ [sigText] }
    .ok { b3 with cAdapters := b3.cAdapters ++ [sigText, fnBody] }

/-- `InterfaceGenerator::export`: a newline separator goes to c_fns, then
print_sig writes the function's public signature into h_fns and an
export-name attribute comment goes to c_adapters, and only then is the
result arity checked. -/
def exportGen (sigResults : Nat) (sigText fnBody : String) (bufs : Bufs) :
    Except Bufs Bufs :=
  let b1 : Bufs := { bufs with cFns := bufs.cFns ++ ["\n"] }
  let b2 : Bufs := { b1 with hFns := b1.hFns ++ [sigText] }
  let b3 : Bufs := { b2 with cAdapters := b2.cAdapters ++ ["// __export_name__ comment"] }
  if sigResults ≥ 2 then .error b3
  else .ok { b3 with cAdapters :=
    b3.cAdapters ++ [if sigResults = 0 then "procedure" else "function", fnBody] }

/-! ### The droppable-borrow assertion
(InterfaceGenerator::contains_droppable_borrow, lib.rs 2343-2400;
FunctionBindgen::assert_no_droppable_borrows, lib.rs 2532-2543; its only
call sites are Instruction::ListCanonLift, lib.rs 3040, and
Instruction::ListLift, lib.rs 3067) -/

def containsDroppableBorrow (env : Nat → TypeDefKind)
    (resourceDir : Nat → Direction) (dealias : Nat → Nat) (inImport : Bool) :
    Nat → WitType → Bool
  | 0, _ => false
  | fuel + 1, ty =>
    match ty with
    | .tId i =>
      match env i with
      | .handle (.borrow r) =>
          !inImport && (resourceDir (dealias r) == .dirImport)
      | .handle (.own _) => false
      | .resource => false
      | .flags _ => false
      | .enum => false
      | .record fs =>
          fs.any (fun f => containsDroppableBorrow env resourceDir dealias inImport fuel f)
      | .tuple ts =>
          ts.any (fun t => containsDroppableBorrow env resourceDir dealias inImport fuel t)
      | .variant cs =>
          cs.any (fun c =>
            match c with
            | some t => containsDroppableBorrow env resourceDir dealias inImport fuel t
            | none => false)
      | .option t => containsDroppableBorrow env resourceDir dealias inImport fuel t
      | .result ok err =>
          (match ok with
           | some t => containsDroppableBorrow env resourceDir dealias inImport fuel t
           | none => false) ||
          (match err with
           | some t => containsDroppableBorrow env resourceDir dealias inImport fuel t
           | none => false)
      | .list t => containsDroppableBorrow env resourceDir dealias inImport fuel t
      | .future => false
      | .stream => false
      | .errorContext => false
      | .alias t => containsDroppableBorrow env resourceDir dealias inImport fuel t
      | .unknown => false
    | _ => false

/-- `assert_no_droppable_borrows`: panics (modelled as `Except.error` with
the panic message) when generating an export adapter with autodrop enabled
and the type contains a borrow of an imported resource. -/
def assertNoDroppableBorrows (env : Nat → TypeDefKind)
    (resourceDir : Nat → Direction) (dealias : Nat → Nat)
    (inImport autodrop : Bool) (fuel : Nat) (context : String) (ty : WitType) :
    Except String Unit :=
  if !inImport && autodrop
      && containsDroppableBorrow env resourceDir dealias inImport fuel ty then
    .error ("Unable to autodrop borrows in `" ++ context
      ++ "` values, please disable autodrop")
  else .ok ()

/-- The three instruction families relevant to claim C9: lowering a handle
(the path a returned borrow takes in an export adapter) and the two list
lifts, which are the only emissions calling `assert_no_droppable_borrows`. -/
inductive MiniInstr where
  | handleLower
  | listCanonLift (tyId : Nat)
  | listLift (tyId : Nat)
deriving DecidableEq

def emitMini (env : Nat → TypeDefKind) (resourceDir : Nat → Direction)
    (dealias : Nat → Nat) (typeName : Nat → String)
    (inImport autodrop : Bool) (fuel : Nat) (inst : MiniInstr)
    (op len : String) : Except String String :=
  match inst with
  | .handleLower => .ok ("(" ++ op ++ ").__handle")
  | .listCanonLift tyId =>
      (assertNoDroppableBorrows env resourceDir dealias inImport autodrop fuel
        "list" (.tId tyId)).map
        (fun _ => typeName tyId ++ "_create(" ++ op ++ ", " ++ len ++ ")")
  | .listLift tyId =>
      (assertNoDroppableBorrows env resourceDir dealias inImport autodrop fuel
        "list" (.tId tyId)).map
        (fun _ => typeName tyId ++ "_create( " ++ op ++ ", " ++ len ++ " )")

end WitPascal

namespace WitPascal

/-- Concrete resolve for the C2 counterexample: import interface 10 owns
types 0 and 1; export interface 20 owns type 2, which references type 0
only.  Type 1 is reachable only from the import interface. -/
def r2cex : MiniResolve where
  numTypes := 3
  typeOwner := fun t => if t = 0 ∨ t = 1 then some 10 else if t = 2 then some 20 else none
  typeDeps := fun t => if t = 2 then [0] else []
  ifaceTypes := fun i => if i = 10 then [0, 1] else if i = 20 then [2] else []
  exports := [20]

/-- Concrete metadata for the C1 counterexample: every type identity is an
anonymous primitive-only shape with structural encoding list_u8. -/
def metaCex : Nat → TypeMeta :=
  fun _ => ⟨.anonymous true, "list_u8", "ns", false⟩

/-- Concrete metadata mixing the two naming regimes for the C1 witness:
identity 0 is a named type whose owner namespace is the world and whose
push_ty_name encoding is list_u8; every other identity is the anonymous
primitive-only shape list<u8> with the same encoding. -/
def metaC1Mixed : Nat → TypeMeta :=
  fun i =>
    if i = 0 then ⟨.named "list-u8", "list_u8", "w", false⟩
    else ⟨.anonymous true, "list_u8", "ns", false⟩

/-- Concrete type environment for the C3 witness: type 0 is
result<u32, string>. -/
def envC3 : Nat → TypeDefKind :=
  fun i => if i = 0 then .result (some .tU32) (some .tString) else .unknown

/-- Concrete environment for C9: resource 0 is an imported resource, type 1
is borrow<0>, type 2 is list<borrow<0>>. -/
def envC9 : Nat → TypeDefKind :=
  fun i =>
    if i = 0 then .resource
    else if i = 1 then .handle (.borrow 0)
    else if i = 2 then .list (.tId 1)
    else .unknown

def dirC9 : Nat → Direction := fun _ => .dirImport

/-- Concrete resource registry for the C4 witness: resource 0 is exported,
every other resource id is imported. -/
def resC4 : Nat → ResourceInfo :=
  fun i =>
    if i = 0 then ⟨.dirExport, "own0", "borrow0", "drop0"⟩
    else ⟨.dirImport, "own1", "borrow1", "drop1"⟩

end WitPascal

/-- C6: for every integer narrowing/widening instruction pair, lowering then
lifting reproduces any value representable in the narrow type exactly, and
lowering an out-of-range value truncates via two's-complement wraparound
(the result is congruent to the input modulo the target width and lies in the
target range; concrete out-of-range inputs wrap instead of saturating). -/
theorem C6_int_roundtrip (v x : Int) :
    ((0 ≤ v → v < 256 → WitPascal.u8FromI32 (WitPascal.i32FromNarrow v) = v) ∧
     (-128 ≤ v → v < 128 → WitPascal.s8FromI32 (WitPascal.i32FromNarrow v) = v) ∧
     (0 ≤ v → v < 65536 → WitPascal.u16FromI32 (WitPascal.i32FromNarrow v) = v) ∧
     (-32768 ≤ v → v < 32768 → WitPascal.s16FromI32 (WitPascal.i32FromNarrow v) = v) ∧
     (0 ≤ v → v < 4294967296 → WitPascal.u32FromI32 (WitPascal.i32FromNarrow v) = v) ∧
     (WitPascal.s32FromI32 (WitPascal.i32FromS32 v) = v) ∧
     (0 ≤ v → v < 18446744073709551616 →
        WitPascal.u64FromI64 (WitPascal.i64FromU64 v) = v) ∧
     (WitPascal.s64FromI64 (WitPascal.i64FromS64 v) = v)) ∧
    ((WitPascal.u8FromI32 x) % 256 = x % 256 ∧
     0 ≤ WitPascal.u8FromI32 x ∧ WitPascal.u8FromI32 x < 256) ∧
    ((WitPascal.s8FromI32 x - x) % 256 = 0 ∧
     -128 ≤ WitPascal.s8FromI32 x ∧ WitPascal.s8FromI32 x < 128) ∧
    WitPascal.u8FromI32 300 = 44 ∧ WitPascal.s8FromI32 200 = -56 := by
  unfold WitPascal.u8FromI32 WitPascal.s8FromI32 WitPascal.u16FromI32 WitPascal.s16FromI32
    WitPascal.u32FromI32 WitPascal.s32FromI32 WitPascal.u64FromI64 WitPascal.s64FromI64
    WitPascal.i32FromNarrow WitPascal.i32FromS32 WitPascal.i64FromU64 WitPascal.i64FromS64
  refine ⟨⟨?_, ?_, ?_, ?_, ?_, rfl, ?_, rfl⟩, ⟨?_, ?_, ?_⟩, ⟨?_, ?_, ?_⟩, by decide, by decide⟩
  all_goals omega

/-- Witness for C6 at concrete inputs. -/
theorem C6_int_roundtrip_witness :
    WitPascal.u8FromI32 (WitPascal.i32FromNarrow 250) = 250 ∧
    WitPascal.s8FromI32 (WitPascal.i32FromNarrow (-100)) = -100 := by
  refine ⟨(C6_int_roundtrip 250 0).1.1 (by norm_num) (by norm_num), ?_⟩
  exact (C6_int_roundtrip (-100) 0).1.2.1 (by norm_num) (by norm_num)

/-- C7: lowering a two-word (more than 32 members) flags mask produces the
low 32 bits first and the high 32 bits second, and lifting reconstructs the
mask as low OR (high shifted left 32), so lower-then-lift reproduces any
64-bit-representable mask (in particular any 40-bit mask) bit for bit. -/
theorem C7_flags_roundtrip (m : Nat) :
    (WitPascal.flagsLower64 m).1 = m % 4294967296 ∧
    (WitPascal.flagsLower64 m).2 = m / 4294967296 % 4294967296 ∧
    (m < 18446744073709551616 →
      WitPascal.flagsLift64 (WitPascal.flagsLower64 m).1 (WitPascal.flagsLower64 m).2 = m) := by
  have emask : (0xffffffff : Nat) = 2 ^ 32 - 1 := by norm_num
  have e32 : (4294967296 : Nat) = 2 ^ 32 := by norm_num
  have hlow : (WitPascal.flagsLower64 m).1 = m % 4294967296 := by
    unfold WitPascal.flagsLower64
    simp only [emask, Nat.and_pow_two_sub_one_eq_mod, e32]
  have hhigh : (WitPascal.flagsLower64 m).2 = m / 4294967296 % 4294967296 := by
    unfold WitPascal.flagsLower64
    simp only [emask, Nat.and_pow_two_sub_one_eq_mod, Nat.shiftRight_eq_div_pow, e32]
  refine ⟨hlow, hhigh, ?_⟩
  intro hm
  unfold WitPascal.flagsLift64
  rw [hlow, hhigh]
  have hdivlt : m / 4294967296 < 4294967296 := by
    apply Nat.div_lt_of_lt_mul
    calc m < 18446744073709551616 := hm
    _ = 4294967296 * 4294967296 := by norm_num
  rw [Nat.mod_eq_of_lt hdivlt]
  apply Nat.eq_of_testBit_eq
  intro i
  rw [Nat.testBit_or, Nat.testBit_shiftLeft]
  rcases lt_or_ge i 32 with hi | hi
  · rw [e32, Nat.testBit_mod_two_pow]
    have h1 : ¬ i ≥ 32 := by omega
    simp [hi, h1]
  · have hmod : (m % 4294967296).testBit i = false := by
      apply Nat.testBit_lt_two_pow
      calc m % 4294967296 < 4294967296 := Nat.mod_lt _ (by norm_num)
      _ = 2 ^ 32 := by norm_num
      _ ≤ 2 ^ i := Nat.pow_le_pow_right (by norm_num) hi
    have hge : i ≥ 32 := hi
    rw [hmod]
    simp only [hge, decide_True, Bool.true_and, Bool.false_or]
    have hdiv : m / 4294967296 = m >>> 32 := by
      rw [Nat.shiftRight_eq_div_pow]
    rw [hdiv, Nat.testBit_shiftRight]
    congr 1
    omega

/-- Witness for C7 at a concrete 40-bit mask. -/
theorem C7_flags_roundtrip_witness :
    WitPascal.flagsLift64 (WitPascal.flagsLower64 0xab12345678).1
      (WitPascal.flagsLower64 0xab12345678).2 = 0xab12345678 :=
  (C7_flags_roundtrip 0xab12345678).2.2 (by norm_num)

/-- C10: the generated cabi_realloc returns the alignment cast to a pointer
and performs no reallocation when new_size is zero; otherwise it reallocates
the given pointer to new_size bytes and returns the result, ignoring
old_size. -/
theorem C10_cabi_realloc (reallocMem : Nat → Nat → Nat)
    (ptr old1 old2 align new_size : Nat) :
    (new_size = 0 → WitPascal.cabi_realloc reallocMem ptr old1 align new_size = (false, align)) ∧
    (new_size ≠ 0 →
      WitPascal.cabi_realloc reallocMem ptr old1 align new_size
        = (true, reallocMem ptr new_size)) ∧
    WitPascal.cabi_realloc reallocMem ptr old1 align new_size
      = WitPascal.cabi_realloc reallocMem ptr old2 align new_size := by
  unfold WitPascal.cabi_realloc
  refine ⟨fun h => by simp [h], fun h => by simp [h], rfl⟩

/-- Witness for C10 at concrete inputs. -/
theorem C10_cabi_realloc_witness :
    WitPascal.cabi_realloc (fun p _ => p) 100 4 8 0 = (false, 8) ∧
    WitPascal.cabi_realloc (fun p _ => p) 100 4 8 16 = (true, 100) := by
  exact ⟨(C10_cabi_realloc (fun p _ => p) 100 4 4 8 0).1 rfl,
         (C10_cabi_realloc (fun p _ => p) 100 4 4 8 16).2.1 (by norm_num)⟩

namespace WitPascal

/-- Looking up the key just inserted at the head of an association list. -/
theorem lookup_cons_self (k : Nat) (v : String) (l : List (Nat × String)) :
    ((k, v) :: l).lookup k = some v := by
  simp [List.lookup]

/-- Looking up a different key skips the head of an association list. -/
theorem lookup_cons_ne (k a : Nat) (v : String) (l : List (Nat × String))
    (h : k ≠ a) : ((a, v) :: l).lookup k = l.lookup k := by
  have hb : (k == a) = false := by simpa using h
  simp [List.lookup, hb]

/-- Evaluation of one `define_live_types` iteration on an unregistered
anonymous primitive-only type. -/
theorem defineLiveStep_anonPrim (world : String) (meta : Nat → TypeMeta)
    (st : NameState) (ty : Nat)
    (h : st.typeNames.lookup ty = none) (hi : (meta ty).info = .anonymous true) :
    defineLiveStep world meta st ty =
      { typeNames := (ty, world ++ "_" ++ (meta ty).encoded ++ "_t") :: st.typeNames,
        primNames :=
          if (world ++ "_" ++ (meta ty).encoded ++ "_t") ∈ st.primNames then st.primNames
          else (world ++ "_" ++ (meta ty).encoded ++ "_t") :: st.primNames,
        hDefs :=
          if (world ++ "_" ++ (meta ty).encoded ++ "_t") ∈ st.primNames
              ∨ (meta ty).isDirectHandle then st.hDefs
          else st.hDefs ++ [ty] } := by
  by_cases hmem : (world ++ "_" ++ (meta ty).encoded ++ "_t") ∈ st.primNames <;>
    by_cases hh : (meta ty).isDirectHandle = true <;>
      simp [defineLiveStep, h, hi, hmem, hh]

/-- Evaluation of one `define_live_types` iteration on an unregistered
named type: the name is built from the owner namespace and the encoding by
string concatenation alone, with no uniqueness check against names already
assigned to other identities. -/
theorem defineLiveStep_named (world : String) (meta : Nat → TypeMeta)
    (st : NameState) (ty : Nat) (s : String)
    (h : st.typeNames.lookup ty = none) (hi : (meta ty).info = .named s) :
    defineLiveStep world meta st ty =
      { st with
        typeNames :=
          (ty, (meta ty).ownerNs ++ "_" ++ (meta ty).encoded ++ "_t") :: st.typeNames,
        hDefs := st.hDefs ++ [ty] } := by
  simp [defineLiveStep, h, hi]

end WitPascal

/-- C1 counterexample: two distinct type identities (0 and 1) that are both
anonymous primitive-only shapes with structural encoding list_u8 are
assigned the same canonical name w_list_u8_t by `define_live_types`,
refuting the claim that two distinct type identities never receive the same
canonical name.  Only one declaration is emitted for the pooled pair. -/
theorem C1_counterexample :
    (WitPascal.defineLiveTypes "w" WitPascal.metaCex ⟨[], [], []⟩ [0, 1]).typeNames.lookup 0
      = some "w_list_u8_t" ∧
    (WitPascal.defineLiveTypes "w" WitPascal.metaCex ⟨[], [], []⟩ [0, 1]).typeNames.lookup 1
      = some "w_list_u8_t" ∧
    (0 : Nat) ≠ 1 ∧
    (WitPascal.defineLiveTypes "w" WitPascal.metaCex ⟨[], [], []⟩ [0, 1]).hDefs = [0] := by
  refine ⟨rfl, rfl, by decide, rfl⟩

/-- C1 (amended): registering the same type identity twice within one pass
is a no-op the second time (same canonical name, no re-emitted
declaration).  The uniqueness half of the claim is false: two distinct type
identities can receive the same canonical name.  This happens deliberately
for anonymous primitive-only shapes with the same structural encoding (one
world-pooled name, and the second registration emits no declaration), and
it also happens outside pooling, because names are built by string
concatenation with no per-name uniqueness check: a named type whose owner
namespace is the world and whose encoding matches an anonymous
primitive-only shape receives the very same name. -/
theorem C1_naming_idempotent_and_pooled (world : String)
    (meta : Nat → WitPascal.TypeMeta) (st : WitPascal.NameState)
    (t1 t2 t3 t4 : Nat) (s : String) :
    ((st.typeNames.lookup t1).isSome →
      WitPascal.defineLiveStep world meta st t1 = st) ∧
    (t1 ≠ t2 →
     st.typeNames.lookup t1 = none → st.typeNames.lookup t2 = none →
     (meta t1).info = .anonymous true → (meta t2).info = .anonymous true →
     (meta t1).encoded = (meta t2).encoded →
     (WitPascal.defineLiveTypes world meta st [t1, t2]).typeNames.lookup t1
       = (WitPascal.defineLiveTypes world meta st [t1, t2]).typeNames.lookup t2 ∧
     (WitPascal.defineLiveTypes world meta st [t1, t2]).hDefs
       = (WitPascal.defineLiveStep world meta st t1).hDefs) ∧
    (t3 ≠ t4 →
     st.typeNames.lookup t3 = none → st.typeNames.lookup t4 = none →
     (meta t3).info = .named s → (meta t4).info = .anonymous true →
     (meta t3).ownerNs = world → (meta t3).encoded = (meta t4).encoded →
     (WitPascal.defineLiveTypes world meta st [t3, t4]).typeNames.lookup t3
       = (WitPascal.defineLiveTypes world meta st [t3, t4]).typeNames.lookup t4) := by
  refine ⟨?_, ?_, ?_⟩
  · intro h
    unfold WitPascal.defineLiveStep
    simp [h]
  · intro hne h1 h2 hi1 hi2 hd
    have hfold : WitPascal.defineLiveTypes world meta st [t1, t2]
        = WitPascal.defineLiveStep world meta
            (WitPascal.defineLiveStep world meta st t1) t2 := rfl
    have e1 := WitPascal.defineLiveStep_anonPrim world meta st t1 h1 hi1
    have hname : world ++ "_" ++ (meta t2).encoded ++ "_t"
        = world ++ "_" ++ (meta t1).encoded ++ "_t" := by rw [hd]
    have hmem1 : (world ++ "_" ++ (meta t1).encoded ++ "_t")
        ∈ (WitPascal.defineLiveStep world meta st t1).primNames := by
      rw [e1]
      by_cases hmem : (world ++ "_" ++ (meta t1).encoded ++ "_t") ∈ st.primNames <;>
        simp [hmem]
    have hlook2 : (WitPascal.defineLiveStep world meta st t1).typeNames.lookup t2 = none := by
      rw [e1]
      rw [WitPascal.lookup_cons_ne t2 t1 _ _ (Ne.symm hne)]
      exact h2
    have e2 := WitPascal.defineLiveStep_anonPrim world meta
      (WitPascal.defineLiveStep world meta st t1) t2 hlook2 hi2
    rw [hname] at e2
    rw [hfold, e2]
    constructor
    · rw [WitPascal.lookup_cons_ne t1 t2 _ _ hne, e1,
        WitPascal.lookup_cons_self, WitPascal.lookup_cons_self]
    · simp [hmem1]
  · intro hne h3 h4 hi3 hi4 hown henc
    have hfold : WitPascal.defineLiveTypes world meta st [t3, t4]
        = WitPascal.defineLiveStep world meta
            (WitPascal.defineLiveStep world meta st t3) t4 := rfl
    have e3 := WitPascal.defineLiveStep_named world meta st t3 s h3 hi3
    have hlook4 : (WitPascal.defineLiveStep world meta st t3).typeNames.lookup t4
        = none := by
      rw [e3, WitPascal.lookup_cons_ne t4 t3 _ _ (Ne.symm hne)]
      exact h4
    have e4 := WitPascal.defineLiveStep_anonPrim world meta
      (WitPascal.defineLiveStep world meta st t3) t4 hlook4 hi4
    rw [hfold, e4, WitPascal.lookup_cons_ne t3 t4 _ _ hne, e3,
      WitPascal.lookup_cons_self, WitPascal.lookup_cons_self, hown, henc]

/-- Witness for C1 at concrete inputs: part one applied to a state that
already registered identity 5, part two applied to the pooled pair 0, 1,
part three applied to the named/anonymous pair 0, 1 of metaC1Mixed. -/
theorem C1_naming_witness :
    (WitPascal.defineLiveStep "w" WitPascal.metaCex ⟨[(5, "x")], [], []⟩ 5
      = ⟨[(5, "x")], [], []⟩) ∧
    (WitPascal.defineLiveTypes "w" WitPascal.metaCex ⟨[], [], []⟩ [0, 1]).typeNames.lookup 0
      = (WitPascal.defineLiveTypes "w" WitPascal.metaCex ⟨[], [], []⟩ [0, 1]).typeNames.lookup 1 ∧
    (WitPascal.defineLiveTypes "w" WitPascal.metaC1Mixed ⟨[], [], []⟩ [0, 1]).typeNames.lookup 0
      = (WitPascal.defineLiveTypes "w" WitPascal.metaC1Mixed ⟨[], [], []⟩ [0, 1]).typeNames.lookup 1 := by
  refine ⟨?_, ?_, ?_⟩
  · exact (C1_naming_idempotent_and_pooled "w" WitPascal.metaCex
      ⟨[(5, "x")], [], []⟩ 5 6 0 1 "s").1 rfl
  · exact ((C1_naming_idempotent_and_pooled "w" WitPascal.metaCex
      ⟨[], [], []⟩ 0 1 0 1 "s").2.1 (by decide) rfl rfl rfl rfl rfl).1
  · exact (C1_naming_idempotent_and_pooled "w" WitPascal.metaC1Mixed
      ⟨[], [], []⟩ 0 1 0 1 "list-u8").2.2 (by decide) rfl rfl rfl rfl rfl rfl

/-- C2 counterexample: in `r2cex`, type 1 is owned by import interface 10
and is not transitively reachable from the exported interface 20 (which
reaches only types 2 and 0), yet `remove_types_redefined_by_exports`
retains its registry entry, refuting the claim that entries reachable only
from imports are absent. -/
theorem C2_counterexample :
    WitPascal.removeTypesRedefinedByExports WitPascal.r2cex [(0, "a"), (1, "b")]
      = [(0, "a"), (1, "b")] ∧
    (1 : Nat) ∉ WitPascal.reachableFromExportedInterfaces WitPascal.r2cex := by
  decide

/-- C2 (amended): after `remove_types_redefined_by_exports` runs, a registry
entry survives exactly when its type identity lies in the live-type closure
of some interface that owns a type used by an exported interface but is not
itself exported.  Whole interfaces survive: a type reachable only from
imports is retained whenever its owning interface also contributes a type
to the exports. -/
theorem C2_retained_exactly (r : WitPascal.MiniResolve)
    (reg : List (Nat × String)) (kv : Nat × String) (i : Nat) :
    (kv ∈ WitPascal.removeTypesRedefinedByExports r reg ↔
      kv ∈ reg ∧ kv.1 ∈ WitPascal.liveImportTypes r) ∧
    (kv.1 ∈ WitPascal.liveImportTypes r ↔
      ∃ j, j ∈ WitPascal.importsUsed r ∧ kv.1 ∈ WitPascal.interfaceClosure r j) ∧
    (i ∈ WitPascal.importsUsed r ↔
      (i ∉ r.exports ∧ ∃ t, t ∈ WitPascal.liveExportTypes r ∧ r.typeOwner t = some i)) := by
  refine ⟨?_, ?_, ?_⟩
  · simp [WitPascal.removeTypesRedefinedByExports, List.mem_filter]
  · simp [WitPascal.liveImportTypes, List.mem_bind]
  · simp only [WitPascal.importsUsed, List.mem_dedup, List.mem_filter,
      List.mem_filterMap, decide_eq_true_eq]
    tauto

/-- C3: for a function whose declared result is result<Ok, Err>, with
signature flattening enabled the classifier produces a boolean-returning
signature (true meaning success) whose out-parameter list is in strict
order, the Ok payload (named ret) first if present, then the Err payload
(named err) if present; the generated import return path stores the ok
payload into the first out-parameter and exits true when is_err is false,
and stores the err payload and exits false otherwise, with the final store
count matching the out-parameter count. -/
theorem C3_result_bool (env : Nat → WitPascal.TypeDefKind) (fuel i : Nat)
    (ok err : Option WitPascal.WitType)
    (typeName : WitPascal.WitType → String) (v : String)
    (h : env i = .result ok err) :
    WitPascal.classifyRet env (fuel + 1) (some (.tId i)) true
      = some ⟨some (.resultBool ok err), ok.toList ++ err.toList⟩ ∧
    WitPascal.scalarSigKind typeName (some (.resultBool ok err)) = (true, "boolean") ∧
    WitPascal.sigRetptrs ⟨some (.resultBool ok err), ok.toList ++ err.toList⟩ true ok.isSome
      = (if ok.isSome then ["ret"] else []) ++ (if err.isSome then ["err"] else []) ∧
    WitPascal.emitReturnImportResultBool ok err
        ((if ok.isSome then ["ret"] else []) ++ (if err.isSome then ["err"] else [])) v
      = { thenStmts :=
            (if ok.isSome then [.storeRetptr "ret" (v ++ ".ok")] else [])
              ++ [.exitStmt true],
          elseStmts :=
            (if err.isSome then [.storeRetptr "err" (v ++ ".err")] else [])
              ++ [.exitStmt false],
          finalStoreCount :=
            ((if ok.isSome then ["ret"] else [])
              ++ (if err.isSome then ["err"] else [])).length } := by
  rcases ok with _ | okT <;> rcases err with _ | errT <;>
    simp [WitPascal.classifyRet, WitPascal.returnSingle, h, WitPascal.scalarSigKind,
      WitPascal.sigRetptrs, WitPascal.retptrName, WitPascal.emitReturnImportResultBool,
      List.range_succ]

/-- Witness for C3 on the concrete result<u32, string> environment. -/
theorem C3_result_bool_witness :
    WitPascal.classifyRet WitPascal.envC3 5 (some (.tId 0)) true
      = some ⟨some (.resultBool (some .tU32) (some .tString)), [.tU32, .tString]⟩ ∧
    WitPascal.emitReturnImportResultBool (some .tU32) (some .tString)
        ["ret", "err"] "v"
      = ⟨[.storeRetptr "ret" ("v" ++ ".ok"), .exitStmt true],
         [.storeRetptr "err" ("v" ++ ".err"), .exitStmt false], 2⟩ := by
  have h := C3_result_bool WitPascal.envC3 4 0 (some .tU32) (some .tString)
    (fun _ => "") "v" rfl
  exact ⟨by simpa using h.1, by simpa using h.2.2.2⟩

/-- C4: in an export adapter, lifting a borrowed handle of a resource whose
registered direction is Export produces a direct pointer cast of the
operand and leaves the deferred-drop list untouched; lifting a borrowed
handle of an Import-direction resource with autodrop enabled wraps the raw
index in the handle type, records exactly one DroppableBorrow under a fresh
temporary, and the export return path then emits exactly one guarded drop
call for that borrow, placed before the function's return statement. -/
theorem C4_handle_lift (resources : Nat → WitPascal.ResourceInfo)
    (dealias : Nat → Nat) (typeName : Nat → String) (autodrop : Bool)
    (st : WitPascal.LiftState) (op retOp : String) (rE rI tyE tyI : Nat)
    (hE : (resources (dealias rE)).direction = .dirExport)
    (hI : (resources (dealias rI)).direction = .dirImport) :
    WitPascal.emitHandleLift resources dealias typeName false autodrop
        (.borrow rE) tyE op st
      = (st, "((" ++ typeName (dealias rE) ++ "*) " ++ op ++ ")") ∧
    (WitPascal.emitHandleLift resources dealias typeName false true
        (.borrow rI) tyI op st).2 = typeName tyI ++ "(" ++ op ++ ")" ∧
    (WitPascal.emitHandleLift resources dealias typeName false true
        (.borrow rI) tyI op st).1.borrows
      = st.borrows ++ [⟨WitPascal.borrowTmpName st.tmpIdx, dealias rI⟩] ∧
    (st.borrows = [] →
      WitPascal.emitReturnExport resources
          (WitPascal.emitHandleLift resources dealias typeName false true
            (.borrow rI) tyI op st).1 1 retOp
        = (st.borrowDecls ++ [.declZero (WitPascal.borrowTmpName st.tmpIdx)])
            ++ (st.src ++ [.assign (WitPascal.borrowTmpName st.tmpIdx) op])
            ++ [.guardedDrop (WitPascal.borrowTmpName st.tmpIdx)
                  (resources (dealias rI)).dropFn]
            ++ [.retStmt retOp]) := by
  have hne : (resources (dealias rI)).direction ≠ WitPascal.Direction.dirExport := by
    rw [hI]; intro hc; cases hc
  refine ⟨?_, ?_, ?_, ?_⟩
  · simp [WitPascal.emitHandleLift, hE]
  · simp [WitPascal.emitHandleLift, hne]
  · simp [WitPascal.emitHandleLift, hne]
  · intro hb
    simp [WitPascal.emitHandleLift, WitPascal.emitReturnExport, hne, hb]

/-- Witness for C4 on the concrete resource registry (resource 0 exported,
resource 1 imported). -/
theorem C4_handle_lift_witness :
    WitPascal.emitHandleLift WitPascal.resC4 (fun i => i)
        (fun i => "t" ++ toString i) false true (.borrow 0) 7 "x" ⟨[], [], [], 0⟩
      = (⟨[], [], [], 0⟩, "((t0*) x)") ∧
    WitPascal.emitReturnExport WitPascal.resC4
        (WitPascal.emitHandleLift WitPascal.resC4 (fun i => i)
          (fun i => "t" ++ toString i) false true (.borrow 1) 8 "x"
          ⟨[], [], [], 0⟩).1 1 "r"
      = [.declZero "borrow0", .assign "borrow0" "x",
         .guardedDrop "borrow0" "drop1", .retStmt "r"] := by
  have h := C4_handle_lift WitPascal.resC4 (fun i => i)
    (fun i => "t" ++ toString i) true ⟨[], [], [], 0⟩ "x" "r" 0 1 7 8 rfl rfl
  exact ⟨by simpa using h.1, by simpa using h.2.2.2 rfl⟩

namespace WitPascal

/-- Full characterization of a run of return-pointer allocations in an
importing adapter: every allocation uses the stack ret_area, the
function-local counters accumulate maxima, and the pass-wide counters are
untouched. -/
theorem runReturnPointers_import_spec (reqs : List (Nat × Nat)) (st : RPState) :
    runReturnPointers true reqs st
      = (⟨reqs.foldl (fun a p => max a p.1) st.importSize,
          reqs.foldl (fun a p => max a p.2) st.importAlign,
          st.genSize, st.genAlign⟩,
         reqs.map (fun _ => "Pbyte(@ret_area)")) := by
  induction reqs generalizing st with
  | nil => simp [runReturnPointers]
  | cons hd tl ih => simp [runReturnPointers, returnPointer, ih]

/-- Full characterization of a run of return-pointer allocations in an
export adapter: every allocation uses STATIC_RET_AREA, the pass-wide
counters accumulate maxima, and the function-local counters are untouched. -/
theorem runReturnPointers_export_spec (reqs : List (Nat × Nat)) (st : RPState) :
    runReturnPointers false reqs st
      = (⟨st.importSize, st.importAlign,
          reqs.foldl (fun a p => max a p.1) st.genSize,
          reqs.foldl (fun a p => max a p.2) st.genAlign⟩,
         reqs.map (fun _ => "Pbyte(@STATIC_RET_AREA)")) := by
  induction reqs generalizing st with
  | nil => simp [runReturnPointers]
  | cons hd tl ih => simp [runReturnPointers, returnPointer, ih]

end WitPascal

/-- C5 counterexample: two import adapters with the same maximal payload
size (8) but different maximal payload alignments (8 versus 1) get
byte-identical ret_area declarations, because the declaration is a function
of the accumulated size alone (the aligned-attribute line in the source is
commented out).  The emitted declaration therefore does not carry the
claimed maximal alignment. -/
theorem C5_counterexample :
    WitPascal.importRetAreaDecl
        (WitPascal.runReturnPointers true [(8, 8)] ⟨0, 0, 0, 0⟩).1.importSize
      = WitPascal.importRetAreaDecl
        (WitPascal.runReturnPointers true [(8, 1)] ⟨0, 0, 0, 0⟩).1.importSize ∧
    (WitPascal.runReturnPointers true [(8, 8)] ⟨0, 0, 0, 0⟩).1.importAlign = 8 ∧
    (WitPascal.runReturnPointers true [(8, 1)] ⟨0, 0, 0, 0⟩).1.importAlign = 1 ∧
    WitPascal.importRetAreaDecl 8 = some ("ret_area", "array[0..7] of byte") := by
  refine ⟨rfl, rfl, rfl, ?_⟩
  decide

/-- C5 (amended): every return-pointer allocation in an import adapter uses
the function-local stack buffer ret_area, sized to the maximum of that
function's indirect-return payload sizes; the maximal alignment is tracked
but not applied to the emitted declaration.  Every return-pointer
allocation in an export adapter uses the single static area
STATIC_RET_AREA, declared with both the size and the alignment maxima
accumulated across the entire generation pass. -/
theorem C5_ret_areas (reqs : List (Nat × Nat)) (st : WitPascal.RPState) :
    ((WitPascal.runReturnPointers true reqs st).2
        = reqs.map (fun _ => "Pbyte(@ret_area)") ∧
     (WitPascal.runReturnPointers true reqs st).1.importSize
        = reqs.foldl (fun a p => max a p.1) st.importSize ∧
     (WitPascal.runReturnPointers true reqs st).1.importAlign
        = reqs.foldl (fun a p => max a p.2) st.importAlign ∧
     (WitPascal.runReturnPointers true reqs st).1.genSize = st.genSize ∧
     (WitPascal.runReturnPointers true reqs st).1.genAlign = st.genAlign) ∧
    ((WitPascal.runReturnPointers false reqs st).2
        = reqs.map (fun _ => "Pbyte(@STATIC_RET_AREA)") ∧
     (WitPascal.runReturnPointers false reqs st).1.genSize
        = reqs.foldl (fun a p => max a p.1) st.genSize ∧
     (WitPascal.runReturnPointers false reqs st).1.genAlign
        = reqs.foldl (fun a p => max a p.2) st.genAlign ∧
     (WitPascal.runReturnPointers false reqs st).1.importSize = st.importSize ∧
     (WitPascal.runReturnPointers false reqs st).1.importAlign = st.importAlign) ∧
    (∀ n, 0 < n → WitPascal.importRetAreaDecl n
        = some ("ret_area", "array[0.." ++ toString (n - 1) ++ "] of byte")) ∧
    (∀ s a, 0 < s → WitPascal.staticRetAreaDecl s a = some ⟨a, s⟩) := by
  refine ⟨?_, ?_, ?_, ?_⟩
  · rw [WitPascal.runReturnPointers_import_spec]
    exact ⟨rfl, rfl, rfl, rfl, rfl⟩
  · rw [WitPascal.runReturnPointers_export_spec]
    exact ⟨rfl, rfl, rfl, rfl, rfl⟩
  · intro n hn
    unfold WitPascal.importRetAreaDecl
    simp [hn]
  · intro s a hs
    unfold WitPascal.staticRetAreaDecl
    simp [hs]

/-- Witness for C5 at a concrete request sequence. -/
theorem C5_ret_areas_witness :
    (WitPascal.runReturnPointers true [(8, 4), (2, 16)] ⟨0, 0, 0, 0⟩).2
      = ["Pbyte(@ret_area)", "Pbyte(@ret_area)"] ∧
    (WitPascal.runReturnPointers false [(8, 4), (2, 16)] ⟨0, 0, 0, 0⟩).1.genSize = 8 ∧
    WitPascal.importRetAreaDecl 8 = some ("ret_area", "array[0..7] of byte") := by
  have h := C5_ret_areas [(8, 4), (2, 16)] ⟨0, 0, 0, 0⟩
  refine ⟨by simpa using h.1.1, by simpa using h.2.1.2.1, ?_⟩
  have h8 := h.2.2.1 8 (by norm_num)
  simpa using h8

/-- C8 counterexample: an export with core result arity 2 aborts, but at the
moment of the abort the function's public header signature has already been
buffered into h_fns (print_sig runs before the arity check on the export
path), so the abort does not happen before any code for the function has
been emitted. -/
theorem C8_counterexample :
    WitPascal.exportGen 2 "function foo(p: int32): boolean" "body" ⟨[], [], []⟩
      = .error ⟨["function foo(p: int32): boolean"], ["\n"],
                ["// __export_name__ comment"]⟩ ∧
    (["function foo(p: int32): boolean"] : List String) ≠ ([] : List String) := by
  exact ⟨rfl, by decide⟩

/-- C8 (amended): any core result arity of two or more makes both the import
and the export generator abort (the panic abandons the entire pass, so
nothing buffered reaches the output) and the result list is never
truncated; at the moment the import path aborts, the function's doc-comment
lines and a newline separator have been buffered but not its signature or
body, while the export path has already buffered the function's public
signature and an attribute comment; arity zero or one always generates
successfully. -/
theorem C8_arity_abort (n : Nat) (docs : List String) (sig body : String)
    (bufs : WitPascal.Bufs) (hn : 2 ≤ n) :
    WitPascal.importGen n docs sig body bufs
      = .error { bufs with hFns := bufs.hFns ++ docs,
                           cFns := bufs.cFns ++ ["\n"] } ∧
    WitPascal.exportGen n sig body bufs
      = .error { bufs with cFns := bufs.cFns ++ ["\n"],
                           hFns := bufs.hFns ++ [sig],
                           cAdapters := bufs.cAdapters
                             ++ ["// __export_name__ comment"] } ∧
    (∀ m, m ≤ 1 →
      WitPascal.exceptIsOk (WitPascal.importGen m docs sig body bufs) = true ∧
      WitPascal.exceptIsOk (WitPascal.exportGen m sig body bufs) = true) := by
  refine ⟨?_, ?_, ?_⟩
  · simp [WitPascal.importGen, hn]
  · simp [WitPascal.exportGen, hn]
  · intro m hm
    have h2 : ¬ m ≥ 2 := by omega
    constructor <;>
      simp [WitPascal.importGen, WitPascal.exportGen, WitPascal.exceptIsOk, h2]

/-- Witness for C8 at arity two on empty buffers, with one doc-comment
line. -/
theorem C8_arity_abort_witness :
    WitPascal.importGen 2 ["// a documented function"] "sig" "body" ⟨[], [], []⟩
      = .error ⟨["// a documented function"], ["\n"], []⟩ ∧
    WitPascal.exceptIsOk
      (WitPascal.importGen 1 ["// a documented function"] "sig" "body" ⟨[], [], []⟩)
      = true := by
  have h := C8_arity_abort 2 ["// a documented function"] "sig" "body"
    ⟨[], [], []⟩ (by norm_num)
  exact ⟨by simpa using h.1, (h.2.2 1 (by norm_num)).1⟩

/-- C9 counterexample: with autodrop enabled, in an export adapter whose
function result is borrow<resource-0> (type id 1 in envC9, resource 0
imported), lowering the returned handle succeeds silently as a raw
__handle extraction, even though the type contains a droppable borrow;
generation does not fail with a diagnostic. -/
theorem C9_counterexample :
    WitPascal.emitMini WitPascal.envC9 WitPascal.dirC9 (fun t => t)
        (fun _ => "ty") false true 5 .handleLower "ret" "len"
      = .ok "(ret).__handle" ∧
    WitPascal.containsDroppableBorrow WitPascal.envC9 WitPascal.dirC9
        (fun t => t) false 5 (.tId 1) = true := by
  exact ⟨rfl, by decide⟩

/-- C9 (amended): with autodrop enabled in an export adapter, the generator
performs no droppable-borrow check when lowering a returned handle (the
lowering always succeeds, producing the raw index extraction); the only
droppable-borrow assertion performed on values is the one applied when
lifting lists: both list-lift instructions fail with the autodrop
diagnostic exactly when the lifted list type contains a borrow of an
imported resource, and no other instruction of this family can fail. -/
theorem C9_only_list_assert (env : Nat → WitPascal.TypeDefKind)
    (resourceDir : Nat → WitPascal.Direction) (dealias : Nat → Nat)
    (typeName : Nat → String) (autodrop : Bool) (fuel tyId : Nat)
    (op len : String) :
    WitPascal.emitMini env resourceDir dealias typeName false autodrop fuel
        .handleLower op len = .ok ("(" ++ op ++ ").__handle") ∧
    (WitPascal.containsDroppableBorrow env resourceDir dealias false fuel
        (.tId tyId) = true →
      WitPascal.emitMini env resourceDir dealias typeName false true fuel
          (.listLift tyId) op len
        = .error "Unable to autodrop borrows in `list` values, please disable autodrop" ∧
      WitPascal.emitMini env resourceDir dealias typeName false true fuel
          (.listCanonLift tyId) op len
        = .error "Unable to autodrop borrows in `list` values, please disable autodrop") ∧
    (∀ inst : WitPascal.MiniInstr,
      WitPascal.exceptIsOk (WitPascal.emitMini env resourceDir dealias typeName
        false autodrop fuel inst op len) = false →
      ∃ t, inst = .listCanonLift t ∨ inst = .listLift t) := by
  refine ⟨rfl, ?_, ?_⟩
  · intro h
    constructor <;>
      simp [WitPascal.emitMini, WitPascal.assertNoDroppableBorrows, h, Except.map]
  · intro inst h
    cases inst with
    | handleLower => simp [WitPascal.emitMini, WitPascal.exceptIsOk] at h
    | listCanonLift t => exact ⟨t, Or.inl rfl⟩
    | listLift t => exact ⟨t, Or.inr rfl⟩

/-- Witness for C9: lifting a list of borrows of an imported resource in an
export adapter with autodrop enabled fails with the diagnostic. -/
theorem C9_only_list_assert_witness :
    WitPascal.emitMini WitPascal.envC9 WitPascal.dirC9 (fun t => t)
        (fun _ => "ty") false true 5 (.listLift 2) "p" "n"
      = .error "Unable to autodrop borrows in `list` values, please disable autodrop" :=
  ((C9_only_list_assert WitPascal.envC9 WitPascal.dirC9 (fun t => t)
    (fun _ => "ty") true 5 2 "p" "n").2.1 (by decide)).1
